import Mathlib

/-!
Shallow embedding of `src/main/Comparators.ts` (langx-js).

JavaScript values relevant to the comparators are modelled by `JSVal`:
null and undefined collapse into `vnull`; numbers are modelled by `Int`
(the claims only involve integral values, and neither `NaN` nor `-0` is
representable in this model — this is recorded where it matters); strings
are Lean `String`s, with `charCodeAt` modelled by `Char.toNat` (UTF-16
code units and unicode scalar values agree on the BMP); `Date` objects
carry an object identity and their epoch-millisecond time; other objects
are represented by their identity alone.

The modules `Objects`, `Preconditions`, `Types`, `Functions` and
`Collects` imported by the source are not part of the repository snapshot;
the narrow collaborator interfaces they provide are modelled from the
spec, each marked `Modelled from the spec:` below.  `Objects.hashCode` is
kept fully abstract: every definition that needs it takes the hash
function as an explicit parameter.
-/

/-- A JavaScript runtime value, as far as the comparators observe it. -/
inductive JSVal where
  | vnull : JSVal
  | vnum (n : Int) : JSVal
  | vstr (s : String) : JSVal
  | vbool (b : Bool) : JSVal
  | vdate (id : Nat) (time : Int) : JSVal
  | vobj (id : Nat) : JSVal
deriving DecidableEq

/-- A JavaScript `Date`, identified by its `getTime()` epoch milliseconds. -/
structure JSDate where
  time : Int
deriving DecidableEq

/-- Models `Date.prototype.getTime`. -/
def JSDate.getTime (d : JSDate) : Int := d.time

/-- Modelled from the spec: the result of the runtime-type classifier
(`Types.getType`), "distinguishing string/number/boolean/date from other
types". -/
inductive JSType where
  | tNumber | tString | tBoolean | tDate | tObject | tNull
deriving DecidableEq

/-- Modelled from the spec: the runtime-type classifier `Types.getType`. -/
def getType : JSVal → JSType
  | JSVal.vnull => JSType.tNull
  | JSVal.vnum _ => JSType.tNumber
  | JSVal.vstr _ => JSType.tString
  | JSVal.vbool _ => JSType.tBoolean
  | JSVal.vdate _ _ => JSType.tDate
  | JSVal.vobj _ => JSType.tObject

/-- ECMAScript truthiness of a value (`if (ret)` in the source).  In the
`Int` model of numbers a number is truthy iff it is nonzero; the
JavaScript-only falsy numbers `NaN` and `-0` are not representable. -/
def truthy : JSVal → Bool
  | JSVal.vnull => false
  | JSVal.vnum n => n != 0
  | JSVal.vstr s => s != ""
  | JSVal.vbool b => b
  | JSVal.vdate _ _ => true
  | JSVal.vobj _ => true

/-- Modelled from the spec: `Types.isNumber`, true exactly on number
values. -/
def isNumberVal : JSVal → Bool
  | JSVal.vnum _ => true
  | _ => false

/-- The numeric content of a value; only read under `isNumberVal`. -/
def numVal : JSVal → Int
  | JSVal.vnum n => n
  | _ => 0

/-- The ECMAScript StrWhiteSpaceChar set: the whitespace and line
terminator code points that `ToNumber` trims from both ends of a
string. -/
def jsWhitespaceChar (c : Char) : Bool :=
  [0x9, 0xA, 0xB, 0xC, 0xD, 0x20, 0xA0, 0x1680,
    0x2000, 0x2001, 0x2002, 0x2003, 0x2004, 0x2005, 0x2006, 0x2007,
    0x2008, 0x2009, 0x200A, 0x2028, 0x2029, 0x202F, 0x205F, 0x3000,
    0xFEFF].contains c.toNat

/-- The value of one digit character in bases up to 16; `none` for a
non-digit. -/
def hexDigitVal (c : Char) : Option Nat :=
  if '0' ≤ c ∧ c ≤ '9' then some (c.toNat - 48)
  else if 'a' ≤ c ∧ c ≤ 'f' then some (c.toNat - 87)
  else if 'A' ≤ c ∧ c ≤ 'F' then some (c.toNat - 55)
  else none

/-- A digit run in the given base to a natural number; `none` when a
character is not a digit of that base. -/
def digitsToNatBase (base : Nat) : List Char → Nat → Option Nat
  | [], acc => some acc
  | c :: cs, acc =>
      match hexDigitVal c with
      | some v =>
          if v < base then digitsToNatBase base cs (acc * base + v) else none
      | none => none

/-- Split a leading run of decimal digits from the rest. -/
def takeDigits : List Char → List Char × List Char
  | [] => ([], [])
  | c :: cs =>
      if c.isDigit then
        let (ds, rest) := takeDigits cs
        (c :: ds, rest)
      else ([], c :: cs)

/-- The digits of an ExponentPart (after its optional sign): nonempty
decimal digits. -/
def parseExpDigits (ds : List Char) : Option Int :=
  if ds.isEmpty then none
  else
    match digitsToNatBase 10 ds 0 with
    | some n => some (n : Int)
    | none => none

/-- An optional ExponentPart (`e`/`E`, optional sign, digits) that must
consume the whole remaining input; nothing left means exponent 0. -/
def parseExpPart : List Char → Option Int
  | [] => some 0
  | c :: cs =>
      if c = 'e' ∨ c = 'E' then
        match cs with
        | '+' :: ds => parseExpDigits ds
        | '-' :: ds =>
            match parseExpDigits ds with
            | some n => some (-n)
            | none => none
        | ds => parseExpDigits ds
      else none

/-- An unsigned StrUnsignedDecimalLiteral
(`digits [. digits?] | . digits`, then an optional exponent), returned as
the mantissa digits' value `n`, the fraction-digit count `k` and the
exponent `ex`, so the numeric value is `n * 10 ^ (ex - k)`. -/
def parseDecLit (cs : List Char) : Option (Nat × Nat × Int) :=
  let (intDs, rest1) := takeDigits cs
  match rest1 with
  | '.' :: rest2 =>
      let (fracDs, rest3) := takeDigits rest2
      if intDs.isEmpty ∧ fracDs.isEmpty then none
      else
        match parseExpPart rest3, digitsToNatBase 10 (intDs ++ fracDs) 0 with
        | some ex, some n => some (n, fracDs.length, ex)
        | _, _ => none
  | _ =>
      if intDs.isEmpty then none
      else
        match parseExpPart rest1, digitsToNatBase 10 intDs 0 with
        | some ex, some n => some (n, 0, ex)
        | _, _ => none

/-- The value of an unsigned decimal literal (or `Infinity`) in the
exact-integer model: `some` of the value when it is an integer, `none`
when the literal is malformed (`NaN`), infinite, or not integral — in all
of these cases it is loosely equal to no model number. -/
def strToNumUnsigned (cs : List Char) : Option Int :=
  if cs = ['I', 'n', 'f', 'i', 'n', 'i', 't', 'y'] then none
  else
    match parseDecLit cs with
    | some (n, k, ex) =>
        if (k : Int) ≤ ex then
          some ((n : Int) * (10 : Int) ^ (ex - (k : Int)).toNat)
        else
          let d := ((k : Int) - ex).toNat
          if n % 10 ^ d = 0 then some ((n / 10 ^ d : Nat) : Int)
          else none
    | none => none

/-- A StrDecimalLiteral: optional sign, then an unsigned literal. -/
def strToNumDec (cs : List Char) : Option Int :=
  match cs with
  | '+' :: rest => strToNumUnsigned rest
  | '-' :: rest =>
      match strToNumUnsigned rest with
      | some n => some (-n)
      | none => none
  | rest => strToNumUnsigned rest

/-- ECMAScript `ToNumber` on strings, in the exact-integer model of
numbers: trim whitespace; the empty remainder is 0; `0x`/`0o`/`0b`
radix literals (unsigned, per the StringNumericLiteral grammar); otherwise
a signed decimal literal with optional fraction and exponent.  The result
is `some n` when the string converts to the integer `n`, and `none` when
it converts to `NaN`, an infinity, or a non-integral value — each of which
is loosely equal to no number of the model.  Double rounding and overflow
are outside the exact-integer model. -/
def strToNum (s : String) : Option Int :=
  let trimmed :=
    ((s.data.dropWhile jsWhitespaceChar).reverse.dropWhile
      jsWhitespaceChar).reverse
  match trimmed with
  | [] => some 0
  | '0' :: c :: rest =>
      if c = 'x' ∨ c = 'X' then
        if rest.isEmpty then none
        else
          match digitsToNatBase 16 rest 0 with
          | some n => some (n : Int)
          | none => none
      else if c = 'o' ∨ c = 'O' then
        if rest.isEmpty then none
        else
          match digitsToNatBase 8 rest 0 with
          | some n => some (n : Int)
          | none => none
      else if c = 'b' ∨ c = 'B' then
        if rest.isEmpty then none
        else
          match digitsToNatBase 2 rest 0 with
          | some n => some (n : Int)
          | none => none
      else strToNumDec trimmed
  | _ => strToNumDec trimmed

/-- ECMAScript abstract (loose) equality `==`, restricted to `JSVal`.
Same-type comparisons are value equality (for the two object shapes,
reference identity).  A number and a string compare by `ToNumber` of the
string; a boolean is first coerced to a number.  Comparisons between an
object (`vdate`/`vobj`) and a primitive, which in JavaScript coerce the
object via `ToPrimitive` to a date string or `"[object Object]"`, are
modelled as false — correct for every value this development uses. -/
def looseEq : JSVal → JSVal → Bool
  | JSVal.vnull, JSVal.vnull => true
  | JSVal.vnum a, JSVal.vnum b => a == b
  | JSVal.vstr a, JSVal.vstr b => a == b
  | JSVal.vbool a, JSVal.vbool b => a == b
  | JSVal.vnum a, JSVal.vstr s => strToNum s == some a
  | JSVal.vstr s, JSVal.vnum a => strToNum s == some a
  | JSVal.vbool b, JSVal.vnum a => (if b then (1 : Int) else 0) == a
  | JSVal.vnum a, JSVal.vbool b => (if b then (1 : Int) else 0) == a
  | JSVal.vbool b, JSVal.vstr s => strToNum s == some (if b then (1 : Int) else 0)
  | JSVal.vstr s, JSVal.vbool b => strToNum s == some (if b then (1 : Int) else 0)
  | JSVal.vdate i _, JSVal.vdate j _ => i == j
  | JSVal.vobj i, JSVal.vobj j => i == j
  | _, _ => false

/-- `NumberComparator.compare`: `e1 - e2`. -/
def NumberComparator.compare (e1 e2 : Int) : Int := e1 - e2

/-- The loop of `StringComparator.compare` on the char lists of the two
non-null strings: walk both lists while the character codes agree
(`delta == 0`), return the code difference at the first mismatch, and the
length difference when the shorter string is exhausted. -/
def strCmp : List Char → List Char → Int
  | c :: cs, d :: ds =>
      let delta : Int := (c.toNat : Int) - (d.toNat : Int)
      if delta = 0 then strCmp cs ds else delta
  | cs, ds => (cs.length : Int) - (ds.length : Int)

/-- `StringComparator.compare`.  The source tests `e1 == null` on its
string arguments, so the operands are modelled as `Option String`. -/
def StringComparator.compare : Option String → Option String → Int
  | none, none => 0
  | none, some _ => -1
  | some _, none => 1
  | some s1, some s2 => strCmp s1.data s2.data

/-- `DateComparator.compare`: `e1.getTime() - e2.getTime()`. -/
def DateComparator.compare (e1 e2 : JSDate) : Int := e1.getTime - e2.getTime

/-- `BooleanComparator.compare`. -/
def BooleanComparator.compare (e1 e2 : Bool) : Int :=
  if e1 == e2 then 0 else if e1 then 1 else -1

/-- `HashedComparator.compare`: `Objects.hashCode(e1) - Objects.hashCode(e2)`,
with the hash function passed explicitly (`Objects` is not in the
snapshot). -/
def HashedComparator.compare (hash : JSVal → Int) (e1 e2 : JSVal) : Int :=
  hash e1 - hash e2

/-- `ReverseComparator.compare`: delegates with the operands swapped.  The
wrapped comparator is represented by its compare function. -/
def ReverseComparator.compare {α : Type} (comparator : α → α → Int)
    (e1 e2 : α) : Int :=
  comparator e2 e1

/-- The `Func2 | Function | Comparator` argument accepted by
`FunctionComparator` and `CompositeComparator.addComparator`, as the
tagged union the spec prescribes: `comparatorLike` covers exactly the
values the source's `isComparator` accepts (instances of
`AbstractComparator`, or objects with a callable two-parameter `compare`),
represented by their compare function; `callable` covers plain functions,
which `isComparator` rejects; `notAFunction` covers everything else. -/
inductive FuncArg where
  | comparatorLike (c : JSVal → JSVal → Int) : FuncArg
  | callable (f : JSVal → JSVal → JSVal) : FuncArg
  | notAFunction (v : JSVal) : FuncArg

/-- `isComparator` restricted to `FuncArg` (the source additionally
handles arbitrary objects; on this union it is the tag test). -/
def isComparator : FuncArg → Bool
  | FuncArg.comparatorLike _ => true
  | _ => false

/-- Modelled from the spec: the function-type enumeration of the missing
`Functions` module, "distinguishing no function, plain function, and
comparator-like object shapes". -/
inductive FunctionType where
  | unknown | plainFunc | comparatorShape
deriving DecidableEq, BEq

/-- Modelled from the spec: the callable-type classifier
`Functions.judgeFuncType`. -/
def judgeFuncType : FuncArg → FunctionType
  | FuncArg.comparatorLike _ => FunctionType.comparatorShape
  | FuncArg.callable _ => FunctionType.plainFunc
  | FuncArg.notAFunction _ => FunctionType.unknown

/-- Modelled from the spec: `Preconditions.checkTrue(cond, msg)`, "an
invariant-assertion primitive that fails fast with a descriptive error
when a boolean condition is false". -/
def checkTrue (b : Bool) (msg : String) : Except String Unit :=
  if b then Except.ok () else Except.error msg

/-- Modelled from the spec: the one-argument overload of
`Preconditions.checkTrue` (no message supplied by the caller). -/
def checkTrue1 (b : Bool) : Except String Unit :=
  if b then Except.ok () else Except.error "checkTrue failed"

/-- The `FunctionComparator` constructor:
`Preconditions.checkTrue(Functions.judgeFuncType(f) != FunctionType.UNKNOWN,
"argument is not a function")`, then store `f`.  Construction either
fails or returns the validated wrapped value. -/
def FunctionComparator.make (f : FuncArg) : Except String FuncArg :=
  match checkTrue (judgeFuncType f != FunctionType.unknown)
      "argument is not a function" with
  | Except.ok _ => Except.ok f
  | Except.error e => Except.error e

/-- The raw result `ret` computed by `FunctionComparator.compare`:
`isComparator(this.comp) ? this.comp.compare(e1, e2)
: Functions.callFunction(this.comp, e1, e2)`.  A comparator returns a
number; a callable returns an arbitrary value.  The `notAFunction` case is
unreachable through the constructor (JavaScript would throw calling a
non-function); it is mapped to `undefined`, the result of a call that
returns nothing. -/
def FunctionComparator.callRaw : FuncArg → JSVal → JSVal → JSVal
  | FuncArg.comparatorLike c, e1, e2 => JSVal.vnum (c e1 e2)
  | FuncArg.callable f, e1, e2 => f e1 e2
  | FuncArg.notAFunction _, _, _ => JSVal.vnull

/-- `FunctionComparator.compare`: compute the raw result, then
`if (ret) return 0; if (Types.isNumber(ret)) return ret; return 1;` —
note the truthiness test runs first, exactly as in the source. -/
def FunctionComparator.compare (w : FuncArg) (e1 e2 : JSVal) : Int :=
  let ret := FunctionComparator.callRaw w e1 e2
  if truthy ret then 0
  else if isNumberVal ret then numVal ret
  else 1

/-- The state of a `CompositeComparator`: the stored list of
`FunctionComparator`-wrapped entries (each list element is the wrapped
`FuncArg`, compared via `FunctionComparator.compare`) and the `started`
flag. -/
structure CompositeComparator where
  comps : List FuncArg
  started : Bool

/-- The `CompositeComparator` constructor: empty sequence, unstarted. -/
def CompositeComparator.new : CompositeComparator :=
  { comps := [], started := false }

/-- `CompositeComparator.addComparator`: only before the first compare
call, wrap the argument in a `FunctionComparator` (whose constructor can
fail) and append it; once started, do nothing.  The new state is returned,
or the construction error. -/
def CompositeComparator.addComparator (s : CompositeComparator)
    (x : FuncArg) : Except String CompositeComparator :=
  if !s.started then
    match FunctionComparator.make x with
    | Except.ok w => Except.ok { s with comps := s.comps ++ [w] }
    | Except.error e => Except.error e
  else Except.ok s

/-- Modelled from the spec: the `Collects.forEach` loop of
`CompositeComparator.compare` — "evaluates each comparator in insertion
order, stopping and returning the first nonzero result; returns 0 if all
comparators agree on equivalence".  Each stored entry is evaluated through
`FunctionComparator.compare`. -/
def compositeLoop : List FuncArg → JSVal → JSVal → Int
  | [], _, _ => 0
  | w :: rest, e1, e2 =>
      let r := FunctionComparator.compare w e1 e2
      if r = 0 then compositeLoop rest e1 e2 else r

/-- `CompositeComparator.compare`: set `started`, assert the sequence is
non-empty (`Preconditions.checkTrue`), then run the loop.  The mutated
state is returned alongside the result, so that the state after a failing
call is observable: `started` is set before the assertion runs. -/
def CompositeComparator.compare (s : CompositeComparator)
    (e1 e2 : JSVal) : CompositeComparator × Except String Int :=
  let started := { s with started := true }
  (started,
    match checkTrue1 (!started.comps.isEmpty) with
    | Except.error e => Except.error e
    | Except.ok _ => Except.ok (compositeLoop started.comps e1 e2))

/-- `wrapComparators(...funcs)`: build a fresh composite and
`addComparator` each non-null entry (`Collects.forEach` with the
`c != null` predicate); null entries are skipped. -/
def wrapComparatorsAux : List (Option FuncArg) → CompositeComparator →
    Except String CompositeComparator
  | [], s => Except.ok s
  | none :: rest, s => wrapComparatorsAux rest s
  | some c :: rest, s =>
      match CompositeComparator.addComparator s c with
      | Except.ok t => wrapComparatorsAux rest t
      | Except.error e => Except.error e

/-- `wrapComparators`, entry point. -/
def wrapComparators (funcs : List (Option FuncArg)) :
    Except String CompositeComparator :=
  wrapComparatorsAux funcs CompositeComparator.new

/-- `ObjectComparator.compare`: loose-equality short-circuit, null
ordering, then dispatch on `Types.getType` — same type and one of the four
recognized primitives delegates to that primitive comparator, everything
else falls back to `HashedComparator`.  The hash function is a
parameter. -/
def ObjectComparator.compare (hash : JSVal → Int) (e1 e2 : JSVal) : Int :=
  if looseEq e1 e2 then 0
  else if e1 = JSVal.vnull then -1
  else if e2 = JSVal.vnull then 1
  else if getType e1 = getType e2 then
    match e1, e2 with
    | JSVal.vstr s1, JSVal.vstr s2 =>
        StringComparator.compare (some s1) (some s2)
    | JSVal.vnum n1, JSVal.vnum n2 => NumberComparator.compare n1 n2
    | JSVal.vbool b1, JSVal.vbool b2 => BooleanComparator.compare b1 b2
    | JSVal.vdate _ t1, JSVal.vdate _ t2 =>
        DateComparator.compare { time := t1 } { time := t2 }
    | _, _ => HashedComparator.compare hash e1 e2
  else HashedComparator.compare hash e1 e2

/-- A concrete hash function used for counterexamples and witnesses:
strings hash to 1, everything else to 0. -/
def hashDemo : JSVal → Int
  | JSVal.vstr _ => 1
  | _ => 0

/-- A comparator-like entry that always reports equality. -/
def zeroCmp : FuncArg := FuncArg.comparatorLike fun _ _ => 0

/-- A comparator-like entry that always returns the nonzero result -2. -/
def negTwoCmp : FuncArg := FuncArg.comparatorLike fun _ _ => -2

/-- A plain callable that always returns the raw number -2. -/
def rawNegTwoFn : FuncArg := FuncArg.callable fun _ _ => JSVal.vnum (-2)

/-- Characters with equal codes are equal. -/
theorem charToNat_injective {c d : Char} (h : c.toNat = d.toNat) : c = d :=
  Char.ext (UInt32.ext h)

/-- `strCmp` of a list against itself is 0. -/
theorem strCmp_self (l : List Char) : strCmp l l = 0 := by
  induction l with
  | nil => simp [strCmp]
  | cons c cs ih => simp [strCmp, ih]

/-- Swapping the two lists negates `strCmp`. -/
theorem strCmp_antisymm (l1 : List Char) : ∀ l2, strCmp l1 l2 = -strCmp l2 l1 := by
  induction l1 with
  | nil =>
    intro l2
    cases l2 <;> simp [strCmp]
  | cons c cs ih =>
    intro l2
    cases l2 with
    | nil => simp [strCmp]
    | cons d ds =>
      simp only [strCmp]
      by_cases h : (c.toNat : Int) - (d.toNat : Int) = 0
      · have h2 : (d.toNat : Int) - (c.toNat : Int) = 0 := by omega
        simp [h, h2, ih ds]
      · have h2 : (d.toNat : Int) - (c.toNat : Int) ≠ 0 := by omega
        simp [h, h2]

/-- Past a common prefix, `strCmp` returns the code difference at the first
mismatching position. -/
theorem strCmp_mismatch (pre : List Char) (c d : Char) (l1 l2 : List Char)
    (h : c ≠ d) :
    strCmp (pre ++ c :: l1) (pre ++ d :: l2) =
      (c.toNat : Int) - (d.toNat : Int) := by
  induction pre with
  | nil =>
    have hd : (c.toNat : Int) - (d.toNat : Int) ≠ 0 := by
      intro h0
      exact h (charToNat_injective (by omega))
    simp [strCmp, hd]
  | cons p ps ih =>
    simp [strCmp, ih]

/-- When one list is a prefix of the other, `strCmp` returns the length
difference. -/
theorem strCmp_len (pre rest : List Char) :
    strCmp pre (pre ++ rest) =
      (pre.length : Int) - ((pre ++ rest).length : Int) := by
  induction pre with
  | nil => cases rest <;> simp [strCmp]
  | cons p ps ih => simp [strCmp, ih]

/-- C1: the claim says `FunctionComparator` passes a numeric raw result
through unchanged, sign preserved.  The code tests truthiness before
`Types.isNumber`, so the nonzero number -2 — whether returned by a plain
callable or by a delegated comparator — is normalized to 0. -/
theorem functionComparator_truthy_first :
    FunctionComparator.compare rawNegTwoFn (JSVal.vnum 3) (JSVal.vnum 5) = 0 ∧
    FunctionComparator.compare negTwoCmp (JSVal.vnum 3) (JSVal.vnum 5) = 0 :=
  ⟨rfl, rfl⟩

/-- C2: the claim says a composite whose chain is [always 0, always -2]
returns -2.  Each added comparator is wrapped in a `FunctionComparator`,
which normalizes the truthy result -2 to 0, so the composite returns 0. -/
theorem compositeComparator_nonzero_swallowed :
    CompositeComparator.new.addComparator zeroCmp =
      Except.ok { comps := [zeroCmp], started := false } ∧
    CompositeComparator.addComparator
        { comps := [zeroCmp], started := false } negTwoCmp =
      Except.ok { comps := [zeroCmp, negTwoCmp], started := false } ∧
    (CompositeComparator.compare { comps := [zeroCmp, negTwoCmp], started := false }
        (JSVal.vnum 3) (JSVal.vnum 5)).2 = Except.ok 0 :=
  ⟨rfl, rfl, rfl⟩

/-- C3 counterexample: `compare(5, "5")` does not fall back to the
identity-hash comparator — the loose-equality short-circuit fires
(`5 == "5"` is true in JavaScript) and the result is 0, while the hash
fallback would give -1 under `hashDemo`.  The same short-circuit fires on
the other loosely equal mixed-type forms `ToNumber` accepts, such as
`" 5"`, `"5.0"` and `"+5"`. -/
theorem objectComparator_hash_fallback_counterexample :
    ObjectComparator.compare hashDemo (JSVal.vnum 5) (JSVal.vstr "5") = 0 ∧
    HashedComparator.compare hashDemo (JSVal.vnum 5) (JSVal.vstr "5") = -1 ∧
    ObjectComparator.compare hashDemo (JSVal.vnum 5) (JSVal.vstr " 5") = 0 ∧
    ObjectComparator.compare hashDemo (JSVal.vnum 5) (JSVal.vstr "5.0") = 0 ∧
    ObjectComparator.compare hashDemo (JSVal.vnum 5) (JSVal.vstr "+5") = 0 :=
  ⟨rfl, rfl, rfl, rfl, rfl⟩

/-- C3 (amended): mixed-type arguments that are not loosely equal fall
back to the identity-hash comparator; loosely equal arguments (such as 5
and "5") return 0 without consulting the hash; two strings compare
exactly as the string comparator. -/
theorem objectComparator_loose_then_hash :
    (∀ (hash : JSVal → Int) (e1 e2 : JSVal),
      looseEq e1 e2 = false → getType e1 ≠ getType e2 →
      e1 ≠ JSVal.vnull → e2 ≠ JSVal.vnull →
      ObjectComparator.compare hash e1 e2 = hash e1 - hash e2) ∧
    (∀ (hash : JSVal → Int) (e1 e2 : JSVal), looseEq e1 e2 = true →
      ObjectComparator.compare hash e1 e2 = 0) ∧
    (∀ (hash : JSVal → Int) (s1 s2 : String),
      ObjectComparator.compare hash (JSVal.vstr s1) (JSVal.vstr s2) =
        StringComparator.compare (some s1) (some s2)) := by
  refine ⟨?_, ?_, ?_⟩
  · intro hash e1 e2 h1 h2 h3 h4
    simp [ObjectComparator.compare, h1, h2, h3, h4, HashedComparator.compare]
  · intro hash e1 e2 h
    simp [ObjectComparator.compare, h]
  · intro hash s1 s2
    by_cases h : s1 = s2
    · subst h
      have hl : looseEq (JSVal.vstr s1) (JSVal.vstr s1) = true := by
        simp [looseEq]
      simp [ObjectComparator.compare, hl, StringComparator.compare, strCmp_self]
    · have hl : looseEq (JSVal.vstr s1) (JSVal.vstr s2) = false := by
        simp [looseEq, h]
      simp [ObjectComparator.compare, hl, getType, StringComparator.compare]

/-- C3 witness: 5 and "6" are of mixed type and not loosely equal, so the
comparison is the hash difference. -/
theorem objectComparator_loose_then_hash_witness :
    ObjectComparator.compare hashDemo (JSVal.vnum 5) (JSVal.vstr "6") =
      hashDemo (JSVal.vnum 5) - hashDemo (JSVal.vstr "6") :=
  objectComparator_loose_then_hash.1 hashDemo (JSVal.vnum 5) (JSVal.vstr "6")
    (by decide) (by decide) (by decide) (by decide)

/-- C4: the string comparator orders null before non-null (equal when both
null), returns the code difference at the first mismatching position
within the shorter length, and otherwise the length difference, so a
strict prefix orders before its extension. -/
theorem stringComparator_spec :
    StringComparator.compare none none = 0 ∧
    (∀ s : String, StringComparator.compare none (some s) < 0) ∧
    (∀ s : String, StringComparator.compare (some s) none > 0) ∧
    (∀ s1 s2 : String,
      StringComparator.compare (some s1) (some s2) = strCmp s1.data s2.data) ∧
    (∀ (pre l1 l2 : List Char) (c d : Char), c ≠ d →
      strCmp (pre ++ c :: l1) (pre ++ d :: l2) =
        (c.toNat : Int) - (d.toNat : Int)) ∧
    (∀ pre rest : List Char,
      strCmp pre (pre ++ rest) =
        (pre.length : Int) - ((pre ++ rest).length : Int)) ∧
    (∀ pre rest : List Char, rest ≠ [] → strCmp pre (pre ++ rest) < 0) := by
  refine ⟨rfl, ?_, ?_, fun s1 s2 => rfl,
    fun pre l1 l2 c d h => strCmp_mismatch pre c d l1 l2 h, strCmp_len, ?_⟩
  · intro s
    simp [StringComparator.compare]
  · intro s
    simp [StringComparator.compare]
  · intro pre rest h
    rw [strCmp_len]
    have hpos : 0 < rest.length := List.length_pos.mpr h
    simp only [List.length_append]
    omega

/-- C4 witness: a concrete mismatch and a concrete strict prefix. -/
theorem stringComparator_spec_witness :
    strCmp ['a', 'b'] ['a', 'c'] = ('b'.toNat : Int) - ('c'.toNat : Int) ∧
    strCmp ['a'] ['a', 'b'] < 0 :=
  ⟨stringComparator_spec.2.2.2.2.1 ['a'] [] [] 'b' 'c' (by decide),
   stringComparator_spec.2.2.2.2.2.2 ['a'] ['b'] (by decide)⟩

/-- C5: the reverse comparator evaluates the inner comparator with the
operands swapped. -/
theorem reverseComparator_swaps {α : Type} (c : α → α → Int) (a b : α) :
    ReverseComparator.compare c a b = c b a :=
  rfl

/-- C6: the four true ordering comparators — number, string, date,
boolean — are antisymmetric: swapping the operands negates the result
(so the two results are zero together and otherwise of opposite sign). -/
theorem orderingComparators_antisymm :
    (∀ a b : Int, NumberComparator.compare a b = -NumberComparator.compare b a) ∧
    (∀ s1 s2 : Option String,
      StringComparator.compare s1 s2 = -StringComparator.compare s2 s1) ∧
    (∀ d1 d2 : JSDate,
      DateComparator.compare d1 d2 = -DateComparator.compare d2 d1) ∧
    (∀ a b : Bool,
      BooleanComparator.compare a b = -BooleanComparator.compare b a) := by
  refine ⟨?_, ?_, ?_, ?_⟩
  · intro a b
    simp [NumberComparator.compare]
  · intro s1 s2
    cases s1 <;> cases s2 <;> simp [StringComparator.compare]
    exact strCmp_antisymm _ _
  · intro d1 d2
    simp [DateComparator.compare, JSDate.getTime]
  · intro a b
    cases a <;> cases b <;> rfl

/-- C7: constructing a `FunctionComparator` from a value that is neither
callable nor comparator-shaped fails with the invalid-argument error at
construction; every comparator-shaped or callable value is accepted. -/
theorem functionComparator_construction (v : JSVal)
    (c : JSVal → JSVal → Int) (f : JSVal → JSVal → JSVal) :
    FunctionComparator.make (FuncArg.notAFunction v) =
      Except.error "argument is not a function" ∧
    FunctionComparator.make (FuncArg.comparatorLike c) =
      Except.ok (FuncArg.comparatorLike c) ∧
    FunctionComparator.make (FuncArg.callable f) =
      Except.ok (FuncArg.callable f) :=
  ⟨rfl, rfl, rfl⟩

/-- C8: comparing with an empty chain fails with an error whatever the
`started` flag, never silently returning 0; a composite built from
null-only candidates (all skipped) is exactly the fresh empty one. -/
theorem compositeComparator_empty_fails (b : Bool) (e1 e2 : JSVal) :
    (CompositeComparator.compare { comps := [], started := b } e1 e2).2 =
      Except.error "checkTrue failed" ∧
    wrapComparators [none, none] = Except.ok CompositeComparator.new :=
  ⟨rfl, rfl⟩

/-- C9: after any compare call the composite is frozen — `addComparator`
returns the state unchanged (so the chain and every later compare result
are exactly as without the append), and the compare call itself left the
chain untouched. -/
theorem compositeComparator_frozen_addComparator
    (s : CompositeComparator) (e1 e2 : JSVal) (x : FuncArg) :
    CompositeComparator.addComparator (CompositeComparator.compare s e1 e2).1 x =
      Except.ok (CompositeComparator.compare s e1 e2).1 ∧
    ((CompositeComparator.compare s e1 e2).1).comps = s.comps :=
  ⟨rfl, rfl⟩

/-- C10: a compare call on an empty chain fails, but sets `started` first;
the failed call freezes the composite, so every later `addComparator` is
ignored and every later compare on the instance fails as well. -/
theorem compositeComparator_empty_compare_freezes
    (s : CompositeComparator) (e1 e2 : JSVal) (h : s.comps = []) :
    (CompositeComparator.compare s e1 e2).2 = Except.error "checkTrue failed" ∧
    ((CompositeComparator.compare s e1 e2).1).started = true ∧
    (∀ x : FuncArg,
      CompositeComparator.addComparator
          (CompositeComparator.compare s e1 e2).1 x =
        Except.ok (CompositeComparator.compare s e1 e2).1) ∧
    (∀ a b : JSVal,
      (CompositeComparator.compare
          (CompositeComparator.compare s e1 e2).1 a b).2 =
        Except.error "checkTrue failed") := by
  refine ⟨?_, rfl, fun x => rfl, ?_⟩
  · simp [CompositeComparator.compare, h, checkTrue1]
  · intro a b
    simp [CompositeComparator.compare, h, checkTrue1]

/-- C10 witness: the freeze observed on a freshly constructed composite. -/
theorem compositeComparator_empty_compare_freezes_witness :
    (CompositeComparator.compare CompositeComparator.new JSVal.vnull
        JSVal.vnull).2 = Except.error "checkTrue failed" ∧
    ((CompositeComparator.compare CompositeComparator.new JSVal.vnull
        JSVal.vnull).1).started = true ∧
    CompositeComparator.addComparator
        (CompositeComparator.compare CompositeComparator.new JSVal.vnull
          JSVal.vnull).1 (FuncArg.callable fun _ _ => JSVal.vnull) =
      Except.ok (CompositeComparator.compare CompositeComparator.new
        JSVal.vnull JSVal.vnull).1 ∧
    (CompositeComparator.compare
        (CompositeComparator.compare CompositeComparator.new JSVal.vnull
          JSVal.vnull).1 JSVal.vnull JSVal.vnull).2 =
      Except.error "checkTrue failed" :=
  have h := compositeComparator_empty_compare_freezes CompositeComparator.new
    JSVal.vnull JSVal.vnull rfl
  ⟨h.1, h.2.1, h.2.2.1 _, h.2.2.2 _ _⟩
